import Mathlib

/-!
Verification development for the manuale ACME client (src/manuale/acme.py).

The Python module is embedded shallowly: HTTP responses are plain data,
the transport (requests.get / requests.post) is passed in as a function,
Python string operations are modelled over List Char, and the parts of
urllib.parse used by Acme.path (urlsplit, urljoin) are modelled after the
CPython implementation, restricted to URLs without query, fragment or
params components (none of the URLs handled by this client carry them).
Exceptions are modelled with Except; the mutation of the Account and of
the caller-supplied params dictionary is modelled by explicit state
passing (the functions return the post-call value of the mutated object).
-/

namespace Manuale

/-- Boolean prefix test on character lists (Python str.startswith). -/
def isPrefixL : List Char → List Char → Bool
  | [], _ => true
  | _ :: _, [] => false
  | a :: as, b :: bs => a == b && isPrefixL as bs

/-- Boolean substring test on character lists (the Python test  t in s ). -/
def containsSub (pat : List Char) : List Char → Bool
  | [] => isPrefixL pat []
  | c :: cs => isPrefixL pat (c :: cs) || containsSub pat cs

/-- Index of the first occurrence of a character (Python str.find / str.index). -/
def findChar : List Char → Char → Option Nat
  | [], _ => none
  | c :: cs, t => if c = t then some 0 else (findChar cs t).map (· + 1)

/-- Split on a separator character; mirrors Python str.split with a one
character separator: the result is never empty and keeps empty pieces. -/
def splitOnChar (sep : Char) : List Char → List (List Char)
  | [] => [[]]
  | c :: cs =>
    let r := splitOnChar sep cs
    if c = sep then [] :: r
    else
      match r with
      | h :: t => (c :: h) :: t
      | [] => [[c]]

/-- Inverse of splitOnChar: interleave the separator between the pieces. -/
def joinWith (sep : Char) : List (List Char) → List Char
  | [] => []
  | [x] => x
  | x :: xs => x ++ sep :: joinWith sep xs

/-- The default whitespace set of Python str.strip. -/
def pyWhitespace (c : Char) : Bool :=
  c == ' ' || c == '\t' || c == '\n' || c == '\r' || c == '\x0b' || c == '\x0c'

/-- Python str.strip with no argument: drop whitespace from both ends. -/
def pyStrip (l : List Char) : List Char :=
  ((l.dropWhile pyWhitespace).reverse.dropWhile pyWhitespace).reverse

/-- Exceptions of the Python runtime that can escape the embedded code. -/
inductive PyErr where
  | valueError
  deriving DecidableEq

/-- The extraction step of _get_link: the slice link[1:link.index('>')].
Python str.index raises ValueError when the character is absent. -/
def extractFrom1L (link : List Char) : Except PyErr (List Char) :=
  match findChar link '>' with
  | some i => Except.ok ((link.take i).drop 1)
  | none => Except.error PyErr.valueError

/-- The loop of _get_link over the comma-separated entries. -/
def getLinkGo (ty : List Char) : List (List Char) → Except PyErr (Option (List Char))
  | [] => Except.ok none
  | l :: rest =>
    let link := pyStrip l
    if containsSub ty link then
      (extractFrom1L link).map (fun s => some s)
    else getLinkGo ty rest

/-- Function _get_link over character lists: split the header on commas, strip each
entry, and extract from the first entry containing the relation type. -/
def getLinkL (header ty : List Char) : Except PyErr (Option (List Char)) :=
  getLinkGo ty (splitOnChar ',' header)

/-- Function _get_link from acme.py. The header argument is optional; Python
evaluates  header or ''  first. Returns none when no entry matches. -/
def getLink (header : Option String) (ty : String) : Except PyErr (Option String) :=
  (getLinkL (header.getD "").data ty.data).map (fun o => o.map (fun l => String.mk l))

/-- Reading of the specification text for link extraction: the URL between
the first lt sign of the entry and the following gt sign. Used only to
compare the specified extraction with the implemented one. -/
def specLinkExtractL (entry : List Char) : Except PyErr (List Char) :=
  match findChar entry '<' with
  | some i =>
    match findChar (entry.drop (i + 1)) '>' with
    | some k => Except.ok ((entry.drop (i + 1)).take k)
    | none => Except.error PyErr.valueError
  | none => Except.error PyErr.valueError

/-- Characters allowed in a URL scheme (urllib.parse.scheme_chars). -/
def schemeChar (c : Char) : Bool :=
  c.isAlpha || c.isDigit || c == '+' || c == '-' || c == '.'

/-- The scheme-splitting step of urllib.parse.urlsplit: when the text up to
the first colon is a nonempty run of scheme characters starting with a
letter, it is the scheme, lowercased; the remainder follows the colon. -/
def splitSchemeL (url : List Char) : Option (List Char × List Char) :=
  match findChar url ':' with
  | none => none
  | some i =>
    match url.take i with
    | [] => none
    | c :: rest =>
      if c.isAlpha && rest.all schemeChar then
        some ((c :: rest).map Char.toLower, url.drop (i + 1))
      else none

/-- urllib.parse.urlsplit restricted to scheme, netloc and path (the URLs
this client handles carry no query, fragment or params): after removing
the scheme, a leading double slash introduces the netloc, which extends to
the next slash, question mark or hash. -/
def urlsplitL (url : List Char) (defaultScheme : List Char) :
    List Char × List Char × List Char :=
  let sr := match splitSchemeL url with
    | some p => p
    | none => (defaultScheme, url)
  match sr.2 with
  | '/' :: '/' :: after =>
    let netloc := after.takeWhile (fun c => c ≠ '/' && c ≠ '?' && c ≠ '#')
    (sr.1, netloc, after.drop netloc.length)
  | other => (sr.1, [], other)

/-- urllib.parse.urlunsplit restricted to scheme, netloc and path. -/
def urlunsplitL (scheme netloc path : List Char) : List Char :=
  let url := if !netloc.isEmpty || isPrefixL ['/', '/'] path then
      '/' :: '/' :: (netloc ++ (if !path.isEmpty && !isPrefixL ['/'] path then '/' :: path else path))
    else path
  if !scheme.isEmpty then scheme ++ ':' :: url else url

/-- urllib.parse.uses_relative. -/
def usesRelativeL : List (List Char) :=
  (["", "ftp", "http", "gopher", "nntp", "imap", "wais", "file", "https",
    "shttp", "mms", "prospero", "rtsp", "rtspu", "sftp", "svn", "svn+ssh",
    "ws", "wss"]).map String.data

/-- urllib.parse.uses_netloc. -/
def usesNetlocL : List (List Char) :=
  (["", "ftp", "http", "gopher", "nntp", "telnet", "imap", "wais", "file",
    "mms", "https", "shttp", "snews", "prospero", "rtsp", "rtspu", "rsync",
    "svn", "svn+ssh", "sftp", "nfs", "git", "git+ssh", "ws", "wss"]).map String.data

/-- The relative-path merge of urllib.parse.urljoin: combine the base path
with the new path, drop dot segments, and render the result. -/
def mergeSegments (bpath path : List Char) : List Char :=
  let baseParts0 := splitOnChar '/' bpath
  let baseParts := if baseParts0.getLast? = some [] then baseParts0 else baseParts0.dropLast
  let segments :=
    if isPrefixL ['/'] path then splitOnChar '/' path
    else
      let segs := baseParts ++ splitOnChar '/' path
      match segs with
      | [] => []
      | first :: rest =>
        match rest.getLast? with
        | none => [first]
        | some last => first :: (rest.dropLast.filter (fun s => !s.isEmpty)) ++ [last]
  let resolved := segments.foldl (fun acc seg =>
    if seg = ['.', '.'] then acc.dropLast
    else if seg = ['.'] then acc
    else acc ++ [seg]) []
  let resolved :=
    if segments.getLast? = some ['.'] || segments.getLast? = some ['.', '.'] then
      resolved ++ [[]]
    else resolved
  let joined := joinWith '/' resolved
  if joined.isEmpty then ['/'] else joined

/-- urllib.parse.urljoin restricted to URLs without query, fragment or
params, following the CPython implementation: an empty argument yields the
other one; a scheme different from the base scheme (or outside
uses_relative) yields the second argument unchanged; a nonempty netloc in
the second argument wins; otherwise the base netloc is kept and the paths
are merged. -/
def urljoinL (base url : List Char) : List Char :=
  if base.isEmpty then url
  else if url.isEmpty then base
  else
    let b := urlsplitL base []
    let u := urlsplitL url b.1
    if u.1 == b.1 && usesRelativeL.contains u.1 then
      if usesNetlocL.contains u.1 && !u.2.1.isEmpty then
        urlunsplitL u.1 u.2.1 u.2.2
      else
        let netloc := if usesNetlocL.contains u.1 then b.2.1 else u.2.1
        if u.2.2.isEmpty then urlunsplitL u.1 netloc b.2.2
        else urlunsplitL u.1 netloc (mergeSegments b.2.2 u.2.2)
    else url

/-- Acme.path over character lists: a path starting with the four
characters http (a startswith test on the plain string http, case
sensitive) is reduced to its path component via urlparse before being
joined against the base URL with urljoin. -/
def acmePathL (baseUrl p : List Char) : List Char :=
  let p2 := if isPrefixL ("http").data p then (urlsplitL p []).2.2 else p
  urljoinL baseUrl p2

/-- Acme.path from acme.py. -/
def acmePath (baseUrl p : String) : String :=
  String.mk (acmePathL baseUrl.data p.data)

/-- Parsed JSON values, standing for what response.json() returns. -/
inductive Json where
  | null : Json
  | jbool : Bool → Json
  | jnum : Int → Json
  | jstr : String → Json
  | jarr : List Json → Json
  | jobj : List (String × Json) → Json

/-- An HTTP response as the Driver consumes it: status code, the three
headers the module reads, the outcome of response.json() (ok with the
parsed value, or error with the ValueError message), and the raw body
bytes (response.content). -/
structure Response where
  status : Nat
  location : Option String
  link : Option String
  replayNonce : Option String
  jsonBody : Except String Json
  content : List Nat

/-- The Account object: the key and the server-assigned URI. -/
structure Account where
  key : String
  uri : Option String

/-- The Acme client object: base URL and account (self.key is
account.key, assigned in the constructor). -/
structure Acme where
  url : String
  account : Account

/-- Modelled from the spec: the unprotected JWS header produced by
generate_header in crypto.py, which is not under src. Per the spec it is
the Signer output for the account key and carries no nonce entry. -/
structure Header where
  alg : String
  jwk : String

/-- The protected header: a deep copy of the unprotected header plus the
nonce entry added by get_headers. -/
structure ProtectedHeader where
  base : Header
  nonce : Option String

/-- Modelled from the spec: the signed envelope produced by sign_request
in crypto.py, which is not under src: payload plus header pair, signed
with the account key. -/
structure SignedRequest where
  key : String
  header : Header
  protectedHeader : ProtectedHeader
  payload : Json

/-- Modelled from the spec: generate_header from crypto.py (not under
src) builds the unprotected JWS header from the account key. -/
def generate_header (key : String) : Header :=
  { alg := "RS256", jwk := key }

/-- Modelled from the spec: sign_request from crypto.py (not under src)
wraps the payload and the header pair into the signed envelope. -/
def sign_request (key : String) (h : Header) (ph : ProtectedHeader) (payload : Json) :
    SignedRequest :=
  { key := key, header := h, protectedHeader := ph, payload := payload }

/-- RegistrationResult from acme.py. -/
structure RegistrationResult where
  contents : Json
  uri : Option String
  terms : Option String

/-- NewAuthorizationResult from acme.py. -/
structure NewAuthorizationResult where
  contents : Json
  uri : Option String

/-- IssuanceResult from acme.py. The intermediate field holds, as in the
Python code, either nothing (the up relation was absent), the raw string
from the link header when it is falsy (the empty string), or the bytes
fetched from the link URL. -/
structure IssuanceResult where
  certificate : List Nat
  location : Option String
  intermediate : Option (String ⊕ List Nat)

/-- The failures an operation can surface: AcmeError carrying the raw
response, AcmeError carrying the message built by _json, AcmeError
wrapping the exception caught in get_authorization, the
AccountAlreadyExistsError with response and URI (the error classes live
in errors.py, not under src, and are modelled from the spec as plain
carriers), and uncaught Python exceptions. -/
inductive AcmeFailure where
  | acmeResp : Response → AcmeFailure
  | acmeJson : String → AcmeFailure
  | acmeExc : String → AcmeFailure
  | alreadyExists : Response → Option String → AcmeFailure
  | pyValueError : AcmeFailure
  | pyAttrError : AcmeFailure

/-- Function _json from acme.py: return the parsed body, wrapping a ValueError
into AcmeError with the formatted message. -/
def pyJson (resp : Response) : Except AcmeFailure Json :=
  match resp.jsonBody with
  | Except.ok j => Except.ok j
  | Except.error e => Except.error (AcmeFailure.acmeJson ("Invalid JSON response. " ++ e))

/-- Whether an Except value is a success. -/
def exOk {ε α : Type} : Except ε α → Bool
  | Except.ok _ => true
  | Except.error _ => false

/-- The success test str(response.status_code).startswith('2') used by
get_registration, update_registration and validate_authorization. -/
def startsWith2 (n : Nat) : Bool :=
  isPrefixL ['2'] (Nat.repr n).data

/-- Reading of the specification text for the lenient success test: the
decimal string form of the status code starts with the digit 2. Used only
to compare the specified classification with the implemented one. -/
def startsWithTwoSpec (n : Nat) : Prop :=
  (Nat.repr n).data.head? = some '2'

/-- Acme.get_nonce: GET the directory endpoint through Acme.get, which
resolves the path against the base URL, and read the Replay-Nonce
header. -/
def get_nonce (base : String) (httpGet : String → Response) : Option String :=
  (httpGet (acmePath base ("/directory"))).replayNonce

/-- Acme.get_headers: the unprotected header from generate_header, and a
deep copy of it with the nonce entry set from get_nonce. -/
def get_headers (key base : String) (httpGet : String → Response) :
    Header × ProtectedHeader :=
  let header := generate_header key
  (header, { base := header, nonce := get_nonce base httpGet })

/-- The payload register sends: resource new-reg plus the mailto contact. -/
def registerPayload (email : String) : Json :=
  Json.jobj [("resource", Json.jstr ("new-reg")),
             ("contact", Json.jarr [Json.jstr ("mailto:" ++ email)])]

/-- The signed request register builds before posting. -/
def registerRequest (a : Acme) (httpGet : String → Response) (email : String) :
    SignedRequest :=
  let hdrs := get_headers a.account.key a.url httpGet
  sign_request a.account.key hdrs.1 hdrs.2 (registerPayload email)

/-- The response-handling tail of Acme.register: on 201 assign
account.uri, read the terms link and the JSON body, and build the result;
on 409 raise AccountAlreadyExistsError with the Location value; otherwise
raise AcmeError with the response. Returns the account as left after the
call together with the outcome. -/
def handleRegister (acc : Account) (resp : Response) :
    Account × Except AcmeFailure RegistrationResult :=
  let uri := resp.location
  if resp.status = 201 then
    let acc2 := { acc with uri := uri }
    match getLink resp.link ("terms-of-service") with
    | Except.error _ => (acc2, Except.error AcmeFailure.pyValueError)
    | Except.ok terms =>
      match pyJson resp with
      | Except.error e => (acc2, Except.error e)
      | Except.ok contents =>
        (acc2, Except.ok { contents := contents, uri := uri, terms := terms })
  else if resp.status = 409 then
    (acc, Except.error (AcmeFailure.alreadyExists resp uri))
  else
    (acc, Except.error (AcmeFailure.acmeResp resp))

/-- Acme.register: build headers, sign the new-reg payload, post it to
the new-reg path resolved against the base URL, and classify the
response. The client object is returned as left after the call. -/
def register (a : Acme) (httpGet : String → Response)
    (httpPost : String → SignedRequest → Response) (email : String) :
    Acme × Except AcmeFailure RegistrationResult :=
  let resp := httpPost (acmePath a.url ("/acme/new-reg")) (registerRequest a httpGet email)
  let r := handleRegister a.account resp
  ({ a with account := r.1 }, r.2)

/-- The payload get_registration sends. -/
def regPayload : Json := Json.jobj [("resource", Json.jstr ("reg"))]

/-- Acme.get_registration: post the reg payload to the account URI and
return the parsed JSON body on any status whose decimal form starts with
the digit 2. An unset account URI makes Python raise an AttributeError
inside Acme.path. -/
def get_registration (a : Acme) (httpGet : String → Response)
    (httpPost : String → SignedRequest → Response) : Except AcmeFailure Json :=
  let hdrs := get_headers a.account.key a.url httpGet
  let req := sign_request a.account.key hdrs.1 hdrs.2 regPayload
  match a.account.uri with
  | none => Except.error AcmeFailure.pyAttrError
  | some uri =>
    let resp := httpPost (acmePath a.url uri) req
    if startsWith2 resp.status then pyJson resp
    else Except.error (AcmeFailure.acmeResp resp)

/-- Python dict assignment d[k] = v on an association list with unique
keys: replace the value at the key in place, else append the pair. -/
def dictSet : List (String × Json) → String → Json → List (String × Json)
  | [], k, v => [(k, v)]
  | (k2, v2) :: rest, k, v =>
    if k2 = k then (k, v) :: rest else (k2, v2) :: dictSet rest k v

/-- Python dict lookup d[k] on an association list. -/
def dictLookup : List (String × Json) → String → Option Json
  | [], _ => none
  | (k2, v2) :: rest, k => if k2 = k then some v2 else dictLookup rest k

/-- Acme.update_registration: params or a fresh empty dict, then the
resource key is set to reg in that dict (mutating the caller dictionary
exactly when a nonempty one was passed), the dict is signed and posted to
the account URI, and any status starting with digit 2 yields True. The
first component is the caller-passed dictionary as left after the call. -/
def update_registration (a : Acme) (httpGet : String → Response)
    (httpPost : String → SignedRequest → Response)
    (params : Option (List (String × Json))) :
    Option (List (String × Json)) × Except AcmeFailure Bool :=
  let effective :=
    dictSet (match params with
      | none => []
      | some d => if d.isEmpty then [] else d) ("resource") (Json.jstr ("reg"))
  let callerAfter := params.map (fun d =>
    if d.isEmpty then d else dictSet d ("resource") (Json.jstr ("reg")))
  let hdrs := get_headers a.account.key a.url httpGet
  let req := sign_request a.account.key hdrs.1 hdrs.2 (Json.jobj effective)
  match a.account.uri with
  | none => (callerAfter, Except.error AcmeFailure.pyAttrError)
  | some uri =>
    let resp := httpPost (acmePath a.url uri) req
    if startsWith2 resp.status then (callerAfter, Except.ok true)
    else (callerAfter, Except.error (AcmeFailure.acmeResp resp))

/-- The payload new_authorization sends. -/
def newAuthzPayload (domain : String) : Json :=
  Json.jobj [("resource", Json.jstr ("new-authz")),
             ("identifier", Json.jobj [("type", Json.jstr ("dns")),
                                       ("value", Json.jstr domain)])]

/-- Acme.new_authorization: post the new-authz payload; on 201 return the
parsed body and the Location header, otherwise raise AcmeError. -/
def new_authorization (a : Acme) (httpGet : String → Response)
    (httpPost : String → SignedRequest → Response) (domain : String) :
    Except AcmeFailure NewAuthorizationResult :=
  let hdrs := get_headers a.account.key a.url httpGet
  let req := sign_request a.account.key hdrs.1 hdrs.2 (newAuthzPayload domain)
  let resp := httpPost (acmePath a.url ("/acme/new-authz")) req
  if resp.status = 201 then
    match pyJson resp with
    | Except.ok j => Except.ok { contents := j, uri := resp.location }
    | Except.error e => Except.error e
  else Except.error (AcmeFailure.acmeResp resp)

/-- The payload validate_authorization sends. -/
def challengePayload (ty keyAuth : String) : Json :=
  Json.jobj [("resource", Json.jstr ("challenge")),
             ("type", Json.jstr ty),
             ("keyAuthorization", Json.jstr keyAuth)]

/-- Acme.validate_authorization: post the challenge payload to the given
URI; any status starting with digit 2 yields True. -/
def validate_authorization (a : Acme) (httpGet : String → Response)
    (httpPost : String → SignedRequest → Response) (uri ty keyAuth : String) :
    Except AcmeFailure Bool :=
  let hdrs := get_headers a.account.key a.url httpGet
  let req := sign_request a.account.key hdrs.1 hdrs.2 (challengePayload ty keyAuth)
  let resp := httpPost (acmePath a.url uri) req
  if startsWith2 resp.status then Except.ok true
  else Except.error (AcmeFailure.acmeResp resp)

/-- Acme.get_authorization: a plain GET of the URI; the parsed body is
returned for any status, and a parse failure is wrapped into AcmeError
carrying the caught exception. -/
def get_authorization (a : Acme) (httpGet : String → Response) (uri : String) :
    Except AcmeFailure Json :=
  let resp := httpGet (acmePath a.url uri)
  match resp.jsonBody with
  | Except.ok j => Except.ok j
  | Except.error e => Except.error (AcmeFailure.acmeExc e)

/-- The payload issue_certificate sends. -/
def newCertPayload (csr : String) : Json :=
  Json.jobj [("resource", Json.jstr ("new-cert")), ("csr", Json.jstr csr)]

/-- Acme.issue_certificate: post the new-cert payload; on 201 read the up
relation from the Link header and, when the extracted URL is truthy,
fetch the intermediate certificate with a direct requests.get on that URL
(not routed through Acme.path). The second component lists the URLs
passed to that direct GET. -/
def issue_certificate (a : Acme) (httpGet : String → Response)
    (httpPost : String → SignedRequest → Response)
    (rawGet : String → List Nat) (csr : String) :
    Except AcmeFailure IssuanceResult × List String :=
  let hdrs := get_headers a.account.key a.url httpGet
  let req := sign_request a.account.key hdrs.1 hdrs.2 (newCertPayload csr)
  let resp := httpPost (acmePath a.url ("/acme/new-cert")) req
  if resp.status = 201 then
    match getLink resp.link ("up") with
    | Except.error _ => (Except.error AcmeFailure.pyValueError, [])
    | Except.ok none =>
      (Except.ok { certificate := resp.content, location := resp.location,
                   intermediate := none }, [])
    | Except.ok (some chain) =>
      if chain.isEmpty then
        (Except.ok { certificate := resp.content, location := resp.location,
                     intermediate := some (Sum.inl chain) }, [])
      else
        (Except.ok { certificate := resp.content, location := resp.location,
                     intermediate := some (Sum.inr (rawGet chain)) }, [chain])
  else (Except.error (AcmeFailure.acmeResp resp), [])

theorem isPrefixL_two (l : List Char) : isPrefixL ['2'] l = true ↔ l.head? = some '2' := by
  cases l with
  | nil => simp [isPrefixL]
  | cons c cs =>
    simp [isPrefixL, beq_iff_eq]
    exact eq_comm

theorem startsWith2_iff (n : Nat) : startsWith2 n = true ↔ startsWithTwoSpec n := by
  unfold startsWith2 startsWithTwoSpec
  exact isPrefixL_two (Nat.repr n).data

theorem dictLookup_dictSet (d : List (String × Json)) (k : String) (v : Json) :
    dictLookup (dictSet d k v) k = some v := by
  induction d with
  | nil => simp [dictSet, dictLookup]
  | cons p rest ih =>
    obtain ⟨k2, v2⟩ := p
    by_cases h : k2 = k
    · simp [dictSet, dictLookup, h]
    · simp [dictSet, dictLookup, h, ih]

/-- C1: a register call whose server response has status 201 sets the
account URI to exactly the Location header value and, provided the terms
link extraction and the JSON body parse succeed, returns a
RegistrationResult whose uri field is that same Location value and whose
terms field is the value extracted from the Link header for the
terms-of-service relation (none when no such relation is present). -/
theorem C1_register_201 (a : Acme) (httpGet : String → Response)
    (httpPost : String → SignedRequest → Response) (email : String)
    (resp : Response) (j : Json) (t : Option String)
    (hresp : httpPost (acmePath a.url ("/acme/new-reg")) (registerRequest a httpGet email) = resp)
    (h201 : resp.status = 201)
    (hjson : resp.jsonBody = Except.ok j)
    (hterms : getLink resp.link ("terms-of-service") = Except.ok t) :
    register a httpGet httpPost email =
      ({ a with account := { a.account with uri := resp.location } },
       Except.ok { contents := j, uri := resp.location, terms := t }) := by
  unfold register handleRegister
  rw [hresp]
  simp [h201, hterms, pyJson, hjson]

theorem C1_register_201_witness :
    register { url := "https://ca.example/", account := { key := "KEY", uri := none } }
        (fun _ => { status := 200, location := none, link := none,
                    replayNonce := some ("abc"), jsonBody := Except.error ("x"),
                    content := [] })
        (fun _ _ => { status := 201, location := some ("https://ca.example/acct/1"),
                      link := some ("<https://ca.example/terms>;rel=\"terms-of-service\""),
                      replayNonce := none, jsonBody := Except.ok Json.null,
                      content := [] })
        ("admin@example.com") =
      ({ url := "https://ca.example/",
         account := { key := "KEY", uri := some ("https://ca.example/acct/1") } },
       Except.ok { contents := Json.null, uri := some ("https://ca.example/acct/1"),
                   terms := some ("https://ca.example/terms") }) := by
  exact C1_register_201 _ _ _ _ _ Json.null (some ("https://ca.example/terms"))
    rfl rfl rfl rfl

/-- C2: a register call whose server response has status 409 raises
AccountAlreadyExistsError carrying the response and the Location header
value, leaving the account unchanged; any status other than 201 and 409
raises the generic AcmeError carrying the original response unchanged,
also leaving the account unchanged. -/
theorem C2_register_errors (a : Acme) (httpGet : String → Response)
    (httpPost : String → SignedRequest → Response) (email : String)
    (resp : Response)
    (hresp : httpPost (acmePath a.url ("/acme/new-reg")) (registerRequest a httpGet email) = resp) :
    (resp.status = 409 →
      register a httpGet httpPost email =
        (a, Except.error (AcmeFailure.alreadyExists resp resp.location)))
    ∧ (resp.status ≠ 201 → resp.status ≠ 409 →
      register a httpGet httpPost email =
        (a, Except.error (AcmeFailure.acmeResp resp))) := by
  constructor
  · intro h409
    unfold register handleRegister
    rw [hresp]
    simp [h409]
  · intro h1 h9
    unfold register handleRegister
    rw [hresp]
    simp [h1, h9]

theorem C2_register_errors_witness :
    (register { url := "https://ca.example/", account := { key := "KEY", uri := none } }
        (fun _ => { status := 200, location := none, link := none,
                    replayNonce := some ("abc"), jsonBody := Except.error ("x"),
                    content := [] })
        (fun _ _ => { status := 409, location := some ("https://ca.example/acct/1"),
                      link := none, replayNonce := none,
                      jsonBody := Except.error ("b"), content := [] })
        ("admin@example.com") =
      ({ url := "https://ca.example/", account := { key := "KEY", uri := none } },
       Except.error (AcmeFailure.alreadyExists
         { status := 409, location := some ("https://ca.example/acct/1"),
           link := none, replayNonce := none,
           jsonBody := Except.error ("b"), content := [] }
         (some ("https://ca.example/acct/1")))))
    ∧ (register { url := "https://ca.example/", account := { key := "KEY", uri := none } }
        (fun _ => { status := 200, location := none, link := none,
                    replayNonce := some ("abc"), jsonBody := Except.error ("x"),
                    content := [] })
        (fun _ _ => { status := 500, location := none, link := none,
                      replayNonce := none, jsonBody := Except.error ("b"),
                      content := [] })
        ("admin@example.com") =
      ({ url := "https://ca.example/", account := { key := "KEY", uri := none } },
       Except.error (AcmeFailure.acmeResp
         { status := 500, location := none, link := none, replayNonce := none,
           jsonBody := Except.error ("b"), content := [] }))) := by
  constructor
  · exact (C2_register_errors _ _ _ _ _ rfl).1 rfl
  · exact (C2_register_errors _ _ _ _ _ rfl).2 (by decide) (by decide)

/-- C3: with the transport returning the given response, the operations
get_registration, update_registration and validate_authorization succeed
exactly when the decimal string form of the status code starts with the
digit 2, while register, new_authorization and issue_certificate succeed
exactly when the status code is 201 (assuming the account URI is set, the
body parses as JSON and the Link header extractions do not raise). -/
theorem C3_status_classification (a : Acme) (httpGet : String → Response)
    (httpPost : String → SignedRequest → Response) (rawGet : String → List Nat)
    (u email domain uri ty keyAuth csr : String)
    (resp : Response) (j : Json) (t c : Option String)
    (hpost : ∀ x q, httpPost x q = resp)
    (huri : a.account.uri = some u)
    (hjson : resp.jsonBody = Except.ok j)
    (hterms : getLink resp.link ("terms-of-service") = Except.ok t)
    (hup : getLink resp.link ("up") = Except.ok c) :
    (exOk (get_registration a httpGet httpPost) = true ↔ startsWithTwoSpec resp.status)
    ∧ (exOk (update_registration a httpGet httpPost none).2 = true ↔ startsWithTwoSpec resp.status)
    ∧ (exOk (validate_authorization a httpGet httpPost uri ty keyAuth) = true ↔ startsWithTwoSpec resp.status)
    ∧ (exOk (register a httpGet httpPost email).2 = true ↔ resp.status = 201)
    ∧ (exOk (new_authorization a httpGet httpPost domain) = true ↔ resp.status = 201)
    ∧ (exOk (issue_certificate a httpGet httpPost rawGet csr).1 = true ↔ resp.status = 201) := by
  refine ⟨?_, ?_, ?_, ?_, ?_, ?_⟩
  · rw [← startsWith2_iff]
    unfold get_registration
    simp only [hpost, huri]
    by_cases hs : startsWith2 resp.status
    · simp [hs, pyJson, hjson, exOk]
    · simp [hs, exOk]
  · rw [← startsWith2_iff]
    unfold update_registration
    simp only [hpost, huri]
    by_cases hs : startsWith2 resp.status
    · simp [hs, exOk]
    · simp [hs, exOk]
  · rw [← startsWith2_iff]
    unfold validate_authorization
    simp only [hpost, huri]
    by_cases hs : startsWith2 resp.status
    · simp [hs, exOk]
    · simp [hs, exOk]
  · unfold register handleRegister
    simp only [hpost]
    by_cases h201 : resp.status = 201
    · simp [h201, hterms, pyJson, hjson, exOk]
    · by_cases h409 : resp.status = 409
      · simp [h201, h409, exOk]
      · simp [h201, h409, exOk]
  · unfold new_authorization
    simp only [hpost]
    by_cases h201 : resp.status = 201
    · simp [h201, pyJson, hjson, exOk]
    · simp [h201, exOk]
  · unfold issue_certificate
    simp only [hpost]
    by_cases h201 : resp.status = 201
    · simp only [h201, if_pos, if_true]
      rw [hup]
      cases c with
      | none => simp [exOk, h201]
      | some chain =>
        by_cases hc : chain.isEmpty <;> simp [hc, exOk, h201]
    · simp [h201, exOk]

theorem C3_status_classification_witness :
    (exOk (get_registration
        { url := "https://ca.example/",
          account := { key := "KEY", uri := some ("https://ca.example/acct/1") } }
        (fun _ => { status := 200, location := none, link := none,
                    replayNonce := some ("abc"), jsonBody := Except.error ("x"),
                    content := [] })
        (fun _ _ => { status := 204, location := none, link := none,
                      replayNonce := none, jsonBody := Except.ok Json.null,
                      content := [] })) = true
      ↔ startsWithTwoSpec 204)
    ∧ (exOk (update_registration
        { url := "https://ca.example/",
          account := { key := "KEY", uri := some ("https://ca.example/acct/1") } }
        (fun _ => { status := 200, location := none, link := none,
                    replayNonce := some ("abc"), jsonBody := Except.error ("x"),
                    content := [] })
        (fun _ _ => { status := 204, location := none, link := none,
                      replayNonce := none, jsonBody := Except.ok Json.null,
                      content := [] }) none).2 = true
      ↔ startsWithTwoSpec 204)
    ∧ (exOk (validate_authorization
        { url := "https://ca.example/",
          account := { key := "KEY", uri := some ("https://ca.example/acct/1") } }
        (fun _ => { status := 200, location := none, link := none,
                    replayNonce := some ("abc"), jsonBody := Except.error ("x"),
                    content := [] })
        (fun _ _ => { status := 204, location := none, link := none,
                      replayNonce := none, jsonBody := Except.ok Json.null,
                      content := [] })
        ("https://ca.example/challenge/5") ("http-01") ("ka")) = true
      ↔ startsWithTwoSpec 204)
    ∧ (exOk (register
        { url := "https://ca.example/",
          account := { key := "KEY", uri := some ("https://ca.example/acct/1") } }
        (fun _ => { status := 200, location := none, link := none,
                    replayNonce := some ("abc"), jsonBody := Except.error ("x"),
                    content := [] })
        (fun _ _ => { status := 204, location := none, link := none,
                      replayNonce := none, jsonBody := Except.ok Json.null,
                      content := [] })
        ("admin@example.com")).2 = true
      ↔ (204 : Nat) = 201)
    ∧ (exOk (new_authorization
        { url := "https://ca.example/",
          account := { key := "KEY", uri := some ("https://ca.example/acct/1") } }
        (fun _ => { status := 200, location := none, link := none,
                    replayNonce := some ("abc"), jsonBody := Except.error ("x"),
                    content := [] })
        (fun _ _ => { status := 204, location := none, link := none,
                      replayNonce := none, jsonBody := Except.ok Json.null,
                      content := [] })
        ("example.com")) = true
      ↔ (204 : Nat) = 201)
    ∧ (exOk (issue_certificate
        { url := "https://ca.example/",
          account := { key := "KEY", uri := some ("https://ca.example/acct/1") } }
        (fun _ => { status := 200, location := none, link := none,
                    replayNonce := some ("abc"), jsonBody := Except.error ("x"),
                    content := [] })
        (fun _ _ => { status := 204, location := none, link := none,
                      replayNonce := none, jsonBody := Except.ok Json.null,
                      content := [] })
        (fun _ => [1]) ("CSR")).1 = true
      ↔ (204 : Nat) = 201) := by
  exact C3_status_classification _ _ _ _ ("https://ca.example/acct/1")
    ("admin@example.com") ("example.com") ("https://ca.example/challenge/5")
    ("http-01") ("ka") ("CSR") _ Json.null none none
    (fun _ _ => rfl) rfl rfl rfl rfl

/-- C4 counterexample: the absolute URL HTTP://attacker.example/acme/new-authz
(scheme in upper case, so still an absolute URL) is not reduced to its
path component, because the startswith test on the string http is case
sensitive, and urljoin then returns it unchanged since its scheme differs
from the base scheme; the scheme and host of the base thus do not win. -/
theorem C4_path_counterexample :
    acmePath ("https://ca.example/") ("HTTP://attacker.example/acme/new-authz")
      = "HTTP://attacker.example/acme/new-authz"
    ∧ acmePath ("https://ca.example/") ("HTTP://attacker.example/acme/new-authz")
      ≠ "https://ca.example/acme/new-authz" := by
  constructor
  · rfl
  · decide

/-- C4 amended: an input starting with the lower-case prefix http is
reduced to its path component and re-joined against the base URL, so the
example input https://attacker.example/acme/new-authz resolves to
https://ca.example/acme/new-authz under the base https://ca.example/;
an input that does not start with that exact prefix is joined without
reduction, and in particular an absolute URL with an upper-case scheme is
returned with its own scheme and host intact. -/
theorem C4_path_amended :
    (∀ baseUrl p : String, isPrefixL ("http").data p.data = true →
      acmePath baseUrl p = String.mk (urljoinL baseUrl.data (urlsplitL p.data []).2.2))
    ∧ (∀ baseUrl p : String, isPrefixL ("http").data p.data = false →
      acmePath baseUrl p = String.mk (urljoinL baseUrl.data p.data))
    ∧ acmePath ("https://ca.example/") ("https://attacker.example/acme/new-authz")
        = "https://ca.example/acme/new-authz"
    ∧ acmePath ("https://ca.example/") ("HTTP://attacker.example/acme/new-authz")
        = "HTTP://attacker.example/acme/new-authz" := by
  refine ⟨?_, ?_, rfl, rfl⟩
  · intro baseUrl p h
    unfold acmePath acmePathL
    rw [h]
    simp
  · intro baseUrl p h
    unfold acmePath acmePathL
    rw [h]
    simp

theorem C4_path_amended_witness :
    acmePath ("https://ca.example/") ("https://attacker.example/acme/new-authz")
      = String.mk (urljoinL ("https://ca.example/").data
          (urlsplitL ("https://attacker.example/acme/new-authz").data []).2.2)
    ∧ acmePath ("https://ca.example/") ("/directory")
      = String.mk (urljoinL ("https://ca.example/").data ("/directory").data) := by
  constructor
  · exact C4_path_amended.1 ("https://ca.example/")
      ("https://attacker.example/acme/new-authz") (by decide)
  · exact C4_path_amended.2.1 ("https://ca.example/") ("/directory") (by decide)

/-- C5 counterexample: on a 201 issuance response whose Link header
advertises the up relation at https://attacker.example/issuer, the
intermediate-certificate GET is issued to exactly that URL, although
resolving it through Acme.path against the base https://ca.example/
would have produced https://ca.example/issuer; the CA-supplied scheme
and host are therefore trusted for that request. -/
theorem C5_issue_fetch_counterexample :
    (issue_certificate
        { url := "https://ca.example/", account := { key := "KEY", uri := none } }
        (fun _ => { status := 200, location := none, link := none,
                    replayNonce := some ("abc"), jsonBody := Except.error ("x"),
                    content := [] })
        (fun _ _ => { status := 201, location := some ("https://ca.example/cert/1"),
                      link := some ("<https://attacker.example/issuer>;rel=\"up\""),
                      replayNonce := none, jsonBody := Except.error ("b"),
                      content := [9] })
        (fun _ => [1, 2]) ("CSR")).2
      = ["https://attacker.example/issuer"]
    ∧ acmePath ("https://ca.example/") ("https://attacker.example/issuer")
        = "https://ca.example/issuer"
    ∧ ("https://attacker.example/issuer" : String) ≠ "https://ca.example/issuer" := by
  refine ⟨rfl, rfl, ?_⟩
  decide

/-- C5 amended: requests built by the Driver itself are resolved through
Acme.path against the base URL, but the unauthenticated GET fetching the
intermediate certificate during issuance is sent directly to the URL
extracted from the up relation of the Link header, without path
resolution, so the scheme and host of that CA-supplied URL are used
as they stand. -/
theorem C5_issue_fetch_amended (a : Acme) (httpGet : String → Response)
    (httpPost : String → SignedRequest → Response) (rawGet : String → List Nat)
    (csr url : String) (resp : Response)
    (hpost : ∀ x q, httpPost x q = resp)
    (h201 : resp.status = 201)
    (hup : getLink resp.link ("up") = Except.ok (some url))
    (hne : url.isEmpty = false) :
    (issue_certificate a httpGet httpPost rawGet csr).2 = [url] := by
  unfold issue_certificate
  simp only [hpost, h201, if_true]
  rw [hup]
  simp [hne]

theorem C5_issue_fetch_amended_witness :
    (issue_certificate
        { url := "https://ca.example/", account := { key := "KEY", uri := none } }
        (fun _ => { status := 200, location := none, link := none,
                    replayNonce := some ("abc"), jsonBody := Except.error ("x"),
                    content := [] })
        (fun _ _ => { status := 201, location := some ("https://ca.example/cert/1"),
                      link := some ("<https://attacker.example/issuer>;rel=\"up\""),
                      replayNonce := none, jsonBody := Except.error ("b"),
                      content := [9] })
        (fun _ => [1, 2]) ("CSR")).2
      = ["https://attacker.example/issuer"] := by
  exact C5_issue_fetch_amended _ _ _ _ _ ("https://attacker.example/issuer") _
    (fun _ _ => rfl) rfl rfl rfl

/-- C6 counterexample: a 201 issuance response whose Link header contains
the entry with an empty URL for the up relation makes _get_link return
the empty string, which is falsy, so no second fetch happens and the
intermediate field holds the empty string rather than fetched bytes:
the claim that an up entry always yields fetched bytes fails here. -/
theorem C6_issue_counterexample :
    issue_certificate
        { url := "https://ca.example/", account := { key := "KEY", uri := none } }
        (fun _ => { status := 200, location := none, link := none,
                    replayNonce := some ("abc"), jsonBody := Except.error ("x"),
                    content := [] })
        (fun _ _ => { status := 201, location := some ("https://ca.example/cert/2"),
                      link := some ("<>;rel=\"up\""), replayNonce := none,
                      jsonBody := Except.error ("b"), content := [1, 2] })
        (fun _ => [7, 7]) ("CSR")
      = (Except.ok { certificate := [1, 2],
                     location := some ("https://ca.example/cert/2"),
                     intermediate := some (Sum.inl "") }, [])
    ∧ (some (Sum.inl "") : Option (String ⊕ List Nat)) ≠ some (Sum.inr [7, 7])
    ∧ (some (Sum.inl "") : Option (String ⊕ List Nat)) ≠ none := by
  refine ⟨rfl, ?_, ?_⟩
  · decide
  · decide

/-- C6 amended: on a 201 issuance response, when the Link header yields
an up relation whose extracted URL is nonempty, the intermediate field is
the byte sequence fetched by the second GET from exactly that URL; when
the extracted URL is the empty string, no fetch is attempted and the
intermediate field is that empty string; when there is no up relation,
the intermediate field is absent and no fetch is attempted; in all three
cases the certificate field is the response body bytes and the location
field is the Location header. -/
theorem C6_issue_amended (a : Acme) (httpGet : String → Response)
    (httpPost : String → SignedRequest → Response) (rawGet : String → List Nat)
    (csr url : String) (resp : Response)
    (hpost : ∀ x q, httpPost x q = resp)
    (h201 : resp.status = 201) :
    (getLink resp.link ("up") = Except.ok (some url) → url.isEmpty = false →
      issue_certificate a httpGet httpPost rawGet csr
        = (Except.ok { certificate := resp.content, location := resp.location,
                       intermediate := some (Sum.inr (rawGet url)) }, [url]))
    ∧ (getLink resp.link ("up") = Except.ok none →
      issue_certificate a httpGet httpPost rawGet csr
        = (Except.ok { certificate := resp.content, location := resp.location,
                       intermediate := none }, []))
    ∧ (getLink resp.link ("up") = Except.ok (some "") →
      issue_certificate a httpGet httpPost rawGet csr
        = (Except.ok { certificate := resp.content, location := resp.location,
                       intermediate := some (Sum.inl "") }, [])) := by
  refine ⟨?_, ?_, ?_⟩
  · intro hup hne
    unfold issue_certificate
    simp only [hpost, h201, if_true]
    rw [hup]
    simp [hne]
  · intro hup
    unfold issue_certificate
    simp only [hpost, h201, if_true]
    rw [hup]
  · intro hup
    unfold issue_certificate
    simp only [hpost, h201, if_true]
    rw [hup]
    simp [String.isEmpty]

theorem C6_issue_amended_witness :
    issue_certificate
        { url := "https://ca.example/", account := { key := "KEY", uri := none } }
        (fun _ => { status := 200, location := none, link := none,
                    replayNonce := some ("abc"), jsonBody := Except.error ("x"),
                    content := [] })
        (fun _ _ => { status := 201, location := some ("https://ca.example/cert/1"),
                      link := some ("<https://ca.example/issuer>;rel=\"up\""),
                      replayNonce := none, jsonBody := Except.error ("b"),
                      content := [9, 8] })
        (fun _ => [1, 2]) ("CSR")
      = (Except.ok { certificate := [9, 8],
                     location := some ("https://ca.example/cert/1"),
                     intermediate := some (Sum.inr [1, 2]) },
         ["https://ca.example/issuer"]) := by
  exact (C6_issue_amended _ _ _ _ _ ("https://ca.example/issuer") _
    (fun _ _ => rfl) rfl).1 rfl rfl

/-- C7 counterexample: on the entry x<u>; rel=up, which contains the
relation up, the parser returns the slice from position 1 to the first
gt sign, namely the two characters lt and u, whereas the claim promises
the URL between the first lt sign and the following gt sign, namely the
single character u; the two differ. -/
theorem C7_getlink_counterexample :
    getLink (some ("x<u>; rel=up")) ("up") = Except.ok (some ("<u"))
    ∧ specLinkExtractL ("x<u>; rel=up").data = Except.ok ("u").data
    ∧ ("<u" : String) ≠ "u" := by
  refine ⟨rfl, rfl, ?_⟩
  decide

/-- C7 amended: the parser locates the first comma-separated entry which,
after stripping, contains the requested relation type as a substring, and
returns the characters of that entry from position 1 up to its first gt
sign; this coincides with the URL between the first lt sign and the
following gt sign whenever the entry starts with a lt sign. On the header
of the example it returns https://ca.example/issuer for the relation up,
and a relation contained in no entry yields an absent value, not an error
and not an empty string. -/
theorem C7_getlink_amended :
    (∀ e : List Char, e.head? = some '<' → extractFrom1L e = specLinkExtractL e)
    ∧ getLink (some ("<https://ca.example/acct/1>;rel=\"terms-of-service\", <https://ca.example/issuer>;rel=\"up\""))
        ("up") = Except.ok (some ("https://ca.example/issuer"))
    ∧ getLink (some ("<https://ca.example/acct/1>;rel=\"terms-of-service\", <https://ca.example/issuer>;rel=\"up\""))
        ("next") = Except.ok none := by
  refine ⟨?_, rfl, rfl⟩
  intro e h
  cases e with
  | nil => simp at h
  | cons c cs =>
    simp only [List.head?] at h
    injection h with h
    subst h
    unfold extractFrom1L specLinkExtractL
    simp only [findChar, if_neg (by decide : ¬ ('<' : Char) = '>'),
      if_pos (rfl : ('<' : Char) = '<')]
    cases hk : findChar cs '>' with
    | none => simp [hk, List.drop]
    | some k => simp [hk, List.drop, List.take_succ_cons]

theorem C7_getlink_amended_witness :
    extractFrom1L ("<https://ca.example/issuer>;rel=\"up\"").data
      = specLinkExtractL ("<https://ca.example/issuer>;rel=\"up\"").data := by
  exact C7_getlink_amended.1 ("<https://ca.example/issuer>;rel=\"up\"").data rfl

/-- C8: whenever the response body fails to parse as JSON and the
operation needs the parsed body, the operation surfaces the generic
AcmeError wrapping the parse failure: register on 201 and
get_registration on a lenient success status and new_authorization on
201 raise the AcmeError built by _json with the formatted message, and
get_authorization raises the AcmeError wrapping the caught exception;
in no case does the raw parse exception itself propagate. -/
theorem C8_json_failures (a : Acme) (httpGet httpGet2 : String → Response)
    (httpPost : String → SignedRequest → Response)
    (u email domain uri2 : String) (resp : Response) (e : String) (t : Option String)
    (hpost : ∀ x q, httpPost x q = resp)
    (hget : ∀ x, httpGet2 x = resp)
    (huri : a.account.uri = some u)
    (herr : resp.jsonBody = Except.error e)
    (hterms : getLink resp.link ("terms-of-service") = Except.ok t) :
    (resp.status = 201 →
      (register a httpGet httpPost email).2
        = Except.error (AcmeFailure.acmeJson ("Invalid JSON response. " ++ e)))
    ∧ (startsWith2 resp.status = true →
      get_registration a httpGet httpPost
        = Except.error (AcmeFailure.acmeJson ("Invalid JSON response. " ++ e)))
    ∧ (resp.status = 201 →
      new_authorization a httpGet httpPost domain
        = Except.error (AcmeFailure.acmeJson ("Invalid JSON response. " ++ e)))
    ∧ get_authorization a httpGet2 uri2 = Except.error (AcmeFailure.acmeExc e) := by
  refine ⟨?_, ?_, ?_, ?_⟩
  · intro h201
    unfold register handleRegister
    simp only [hpost]
    simp [h201, hterms, pyJson, herr]
  · intro hs
    unfold get_registration
    simp only [hpost, huri]
    simp [hs, pyJson, herr]
  · intro h201
    unfold new_authorization
    simp only [hpost]
    simp [h201, pyJson, herr]
  · unfold get_authorization
    simp only [hget]
    rw [herr]

theorem C8_json_failures_witness :
    ((register
        { url := "https://ca.example/",
          account := { key := "KEY", uri := some ("https://ca.example/acct/1") } }
        (fun _ => { status := 200, location := none, link := none,
                    replayNonce := some ("abc"), jsonBody := Except.error ("x"),
                    content := [] })
        (fun _ _ => { status := 201, location := none, link := none,
                      replayNonce := none,
                      jsonBody := Except.error ("Expecting value"), content := [] })
        ("admin@example.com")).2
      = Except.error (AcmeFailure.acmeJson ("Invalid JSON response. Expecting value")))
    ∧ (get_authorization
        { url := "https://ca.example/",
          account := { key := "KEY", uri := some ("https://ca.example/acct/1") } }
        (fun _ => { status := 201, location := none, link := none,
                    replayNonce := none,
                    jsonBody := Except.error ("Expecting value"), content := [] })
        ("https://ca.example/authz/4")
      = Except.error (AcmeFailure.acmeExc ("Expecting value"))) := by
  constructor
  · exact (C8_json_failures
      { url := "https://ca.example/",
        account := { key := "KEY", uri := some ("https://ca.example/acct/1") } }
      (fun _ => { status := 200, location := none, link := none,
                  replayNonce := some ("abc"), jsonBody := Except.error ("x"),
                  content := [] })
      (fun _ => { status := 201, location := none, link := none,
                  replayNonce := none,
                  jsonBody := Except.error ("Expecting value"), content := [] })
      (fun _ _ => { status := 201, location := none, link := none,
                    replayNonce := none,
                    jsonBody := Except.error ("Expecting value"), content := [] })
      ("https://ca.example/acct/1") ("admin@example.com") ("example.com")
      ("https://ca.example/authz/4")
      { status := 201, location := none, link := none, replayNonce := none,
        jsonBody := Except.error ("Expecting value"), content := [] }
      ("Expecting value") none
      (fun _ _ => rfl) (fun _ => rfl) rfl rfl rfl).1 rfl
  · exact (C8_json_failures
      { url := "https://ca.example/",
        account := { key := "KEY", uri := some ("https://ca.example/acct/1") } }
      (fun _ => { status := 200, location := none, link := none,
                  replayNonce := some ("abc"), jsonBody := Except.error ("x"),
                  content := [] })
      (fun _ => { status := 201, location := none, link := none,
                  replayNonce := none,
                  jsonBody := Except.error ("Expecting value"), content := [] })
      (fun _ _ => { status := 201, location := none, link := none,
                    replayNonce := none,
                    jsonBody := Except.error ("Expecting value"), content := [] })
      ("https://ca.example/acct/1") ("admin@example.com") ("example.com")
      ("https://ca.example/authz/4")
      { status := 201, location := none, link := none, replayNonce := none,
        jsonBody := Except.error ("Expecting value"), content := [] }
      ("Expecting value") none
      (fun _ _ => rfl) (fun _ => rfl) rfl rfl rfl).2.2.2

/-- C9: get_headers returns the unprotected header produced by
generate_header, which carries no nonce entry, together with a protected
header that is a copy of it augmented with exactly the nonce obtained by
get_nonce, itself the Replay-Nonce header of a GET on the directory path
resolved against the base URL; when that header is absent the nonce entry
is none, and signing and sending still proceed: the signed register
request is still built, and the posted request is still classified by the
server response. -/
theorem C9_get_headers (key base email : String) (httpGet : String → Response) :
    get_headers key base httpGet
      = (generate_header key,
         { base := generate_header key, nonce := get_nonce base httpGet })
    ∧ get_nonce base httpGet = (httpGet (acmePath base ("/directory"))).replayNonce
    ∧ ((httpGet (acmePath base ("/directory"))).replayNonce = none →
        (get_headers key base httpGet).2.nonce = none
        ∧ registerRequest { url := base, account := { key := key, uri := none } } httpGet email
            = sign_request key (generate_header key)
                { base := generate_header key, nonce := none } (registerPayload email)
        ∧ (∀ (httpPost : String → SignedRequest → Response) (resp : Response),
            (∀ x q, httpPost x q = resp) → resp.status = 409 →
            (register { url := base, account := { key := key, uri := none } }
                httpGet httpPost email).2
              = Except.error (AcmeFailure.alreadyExists resp resp.location))) := by
  refine ⟨rfl, rfl, ?_⟩
  intro hn
  refine ⟨?_, ?_, ?_⟩
  · simp [get_headers, get_nonce, hn]
  · simp [registerRequest, get_headers, get_nonce, hn]
  · intro httpPost resp hpost h409
    unfold register handleRegister
    simp only [hpost]
    simp [h409]

theorem C9_get_headers_witness :
    (get_headers ("KEY") ("https://ca.example/")
        (fun _ => { status := 200, location := none, link := none,
                    replayNonce := none, jsonBody := Except.error ("x"),
                    content := [] })).2.nonce = none
    ∧ registerRequest
        { url := "https://ca.example/", account := { key := "KEY", uri := none } }
        (fun _ => { status := 200, location := none, link := none,
                    replayNonce := none, jsonBody := Except.error ("x"),
                    content := [] })
        ("admin@example.com")
      = sign_request ("KEY") (generate_header ("KEY"))
          { base := generate_header ("KEY"), nonce := none }
          (registerPayload ("admin@example.com")) := by
  constructor
  · exact ((C9_get_headers ("KEY") ("https://ca.example/") ("admin@example.com")
      (fun _ => { status := 200, location := none, link := none,
                  replayNonce := none, jsonBody := Except.error ("x"),
                  content := [] })).2.2 rfl).1
  · exact ((C9_get_headers ("KEY") ("https://ca.example/") ("admin@example.com")
      (fun _ => { status := 200, location := none, link := none,
                  replayNonce := none, jsonBody := Except.error ("x"),
                  content := [] })).2.2 rfl).2.1

/-- C10 counterexample: the nonempty dictionary holding exactly the entry
resource to reg is passed as params; the call overwrites that entry with
the same value, so the caller dictionary is left unchanged, against the
claim that it is never left unchanged. -/
theorem C10_params_counterexample :
    (update_registration
        { url := "https://ca.example/",
          account := { key := "KEY", uri := some ("https://ca.example/acct/1") } }
        (fun _ => { status := 200, location := none, link := none,
                    replayNonce := some ("abc"), jsonBody := Except.error ("x"),
                    content := [] })
        (fun _ _ => { status := 200, location := none, link := none,
                      replayNonce := none, jsonBody := Except.ok Json.null,
                      content := [] })
        (some [(("resource"), Json.jstr ("reg"))])).1
      = some [(("resource"), Json.jstr ("reg"))] := rfl

/-- C10 amended: for every nonempty dictionary passed as params, the call
updates the caller-supplied dictionary in place so that afterwards it is
the original dictionary with the key resource set to the value reg, added
or overwritten, and it therefore maps resource to reg; the dictionary can
be left with unchanged contents when it already held exactly that entry. -/
theorem C10_params_amended (a : Acme) (httpGet : String → Response)
    (httpPost : String → SignedRequest → Response)
    (d : List (String × Json)) (hd : d.isEmpty = false) :
    (update_registration a httpGet httpPost (some d)).1
      = some (dictSet d ("resource") (Json.jstr ("reg")))
    ∧ dictLookup (dictSet d ("resource") (Json.jstr ("reg"))) ("resource")
      = some (Json.jstr ("reg")) := by
  constructor
  · unfold update_registration
    cases huri : a.account.uri with
    | none => simp [hd]
    | some u =>
      by_cases hs : startsWith2 ((httpPost (acmePath a.url u)
        (sign_request a.account.key (get_headers a.account.key a.url httpGet).1
          (get_headers a.account.key a.url httpGet).2
          (Json.jobj (dictSet d ("resource") (Json.jstr ("reg")))))).status)
      · simp [hd, hs]
      · simp [hd, hs]
  · exact dictLookup_dictSet d ("resource") (Json.jstr ("reg"))

theorem C10_params_amended_witness :
    (update_registration
        { url := "https://ca.example/",
          account := { key := "KEY", uri := some ("https://ca.example/acct/1") } }
        (fun _ => { status := 200, location := none, link := none,
                    replayNonce := some ("abc"), jsonBody := Except.error ("x"),
                    content := [] })
        (fun _ _ => { status := 200, location := none, link := none,
                      replayNonce := none, jsonBody := Except.ok Json.null,
                      content := [] })
        (some [(("contact"), Json.jstr ("mailto:a@b"))])).1
      = some (dictSet [(("contact"), Json.jstr ("mailto:a@b"))]
          ("resource") (Json.jstr ("reg")))
    ∧ dictLookup (dictSet [(("contact"), Json.jstr ("mailto:a@b"))]
          ("resource") (Json.jstr ("reg"))) ("resource")
      = some (Json.jstr ("reg")) := by
  exact C10_params_amended _ _ _ [(("contact"), Json.jstr ("mailto:a@b"))] rfl

end Manuale
